import Mathlib

/-!
Shallow embedding of the escrow settlement engine of
`src/lib/cron/escrow-auto-release.ts` (the escrow actions module).

Timestamps are modelled as integers (milliseconds).  The external payment
rail (Stripe) is modelled by a `Rail` record saying whether the transfer and
payout calls succeed, together with the operation identifiers they would
return; the external operations actually performed by a call are returned as
a `List RailOp`.  Database writes always succeed in this model; event
logging (`logEscrowEvent`) has no observable effect on the transaction
record and is not modelled.
-/

/-- Transaction statuses, from the status state machine of the source. -/
inductive EscrowStatus
  | pending_payment
  | payment_received
  | shipped
  | in_transit
  | delivered
  | confirmed
  | disputed
  | released
  | refunded
  | cancelled
deriving DecidableEq

/-- Condition types of the `SettlementConditionType` enumeration; `other`
stands for any unrecognized type (the `default` switch branch). -/
inductive ConditionType
  | tracking_confirmation
  | time_based
  | buyer_confirmation
  | delivery_confirmation
  | milestone_based
  | inspection_period
  | dual_signature
  | other
deriving DecidableEq

/-- One entry of a milestone list in a `milestone_based` condition config. -/
structure Milestone where
  id : String
  description : String
  percentage : Int
  completed : Bool
deriving DecidableEq

/-- The type-specific `config` bag of a settlement condition.  Absent JSON
fields are `none`; JS truthiness of a string field is "present and
non-empty". -/
structure ConditionConfig where
  trackingNumber : Option String := none
  carrierName : Option String := none
  deliveryConfirmed : Option Bool := none
  autoReleaseDays : Option Int := none
  autoReleaseAt : Option Int := none
  milestones : Option (List Milestone) := none
  inspectionDeadline : Option Int := none
  buyerSigned : Option Bool := none
  sellerSigned : Option Bool := none
  requireTracking : Option Bool := none
  confirmationRequired : Option Bool := none
deriving DecidableEq

/-- A settlement condition.  The `required` flag exists in the stored data
model (see the repository's condition examples document) but note that the
aggregation code never reads it. -/
structure SettlementCondition where
  type : ConditionType
  description : String
  required : Option Bool := none
  isMet : Bool
  metAt : Option Int := none
  config : ConditionConfig
  priority : Int := 1
deriving DecidableEq

/-- JS truthiness of an optional string field (`!!x`): present and
non-empty. -/
def strTruthy : Option String → Bool
  | none => false
  | some s => !s.isEmpty

/-- One entry of the status history (`statusHistoryJSON`). -/
structure StatusEntry where
  status : EscrowStatus
  timestamp : Int
  triggeredBy : String
  note : String
deriving DecidableEq

/-- The `shippingDetailsJSON` record written by `markAsShipped` and read by
the `delivery_confirmation` evaluator. -/
structure ShippingDetails where
  carrier : String := ""
  trackingNumber : String := ""
  trackingUrl : Option String := none
  estimatedDelivery : Option String := none
  shippedAt : Option Int := none
  actualDelivery : Option String := none
deriving DecidableEq

/-- The escrow transaction document (the fields the settlement engine reads
or writes). -/
structure EscrowTransaction where
  buyerId : String
  sellerId : String
  sellerStripeAccountId : String
  amount : Int
  platformFee : Int
  sellerAmount : Int
  currency : String
  status : EscrowStatus
  statusHistory : List StatusEntry
  conditions : List SettlementCondition
  allConditionsMet : Bool
  disputePeriodEndsAt : Option Int := none
  disputeReason : Option String := none
  disputedAt : Option Int := none
  shippingDetails : Option ShippingDetails := none
  stripeTransferId : Option String := none
  stripePayoutId : Option String := none
deriving DecidableEq

/-- Source function `evaluateCondition(condition, escrow)`: evaluate a single settlement
condition against the transaction snapshot at time `now`.  Mirrors the
switch statement of the source: branches whose config field is absent leave
`isMet` untouched; the `default` branch sets it to `false`; afterwards
`metAt` is set if the condition is met and `metAt` was not yet set. -/
def evaluateCondition (c : SettlementCondition) (escrow : EscrowTransaction)
    (now : Int) : SettlementCondition :=
  let c1 : SettlementCondition :=
    match c.type with
    | .tracking_confirmation =>
        { c with isMet := strTruthy c.config.trackingNumber &&
                          (c.config.deliveryConfirmed == some true) }
    | .time_based =>
        match c.config.autoReleaseAt with
        | some t => { c with isMet := decide (t ≤ now) }
        | none => c
    | .buyer_confirmation =>
        { c with isMet := escrow.status == .confirmed }
    | .delivery_confirmation =>
        match escrow.shippingDetails with
        | some sh => { c with isMet := strTruthy sh.actualDelivery }
        | none => c
    | .milestone_based =>
        match c.config.milestones with
        | some ms => { c with isMet := ms.all (fun m => m.completed) }
        | none => c
    | .inspection_period =>
        match c.config.inspectionDeadline with
        | some d =>
            { c with isMet := decide (d ≤ now) && !(escrow.status == .disputed) }
        | none => c
    | .dual_signature =>
        { c with isMet := (c.config.buyerSigned == some true) &&
                          (c.config.sellerSigned == some true) }
    | .other => { c with isMet := false }
  if c1.isMet = true ∧ c1.metAt = none then { c1 with metAt := some now } else c1

/-- Result record of buyer/seller actions and of `releaseFundsToSeller`:
`{ success: boolean; error?: string }`. -/
structure ActionResult where
  success : Bool
  error : Option String := none
deriving DecidableEq

/-- Result record of `evaluateSettlementConditions`. -/
structure EvalResult where
  allConditionsMet : Bool
  unmetConditions : List String
  released : Bool
deriving DecidableEq

/-- Behaviour of the external payment rail for one call: whether the
transfer / payout API calls succeed, and the identifiers they return. -/
structure Rail where
  transferOk : Bool
  payoutOk : Bool
  transferId : String
  payoutId : String
deriving DecidableEq

/-- An external fund-movement operation actually performed by the rail. -/
inductive RailOp
  | transfer (amount : Int) (destination : String)
  | payout (amount : Int) (account : String)
deriving DecidableEq

/-- Source function `releaseFundsToSeller(escrowId)`: guard on `allConditionsMet`, guard on
terminal status, then Step 1 (transfer to the seller's connected account)
and Step 2 (payout from that account).  A failing rail call raises, so the
catch block returns a failure and no database write happens; in particular
on a payout failure the transfer identifier is NOT persisted.  Only when
both steps succeed is the document updated to `released` with both
identifiers recorded. -/
def releaseFundsToSeller (rail : Rail) (now : Int) (e : EscrowTransaction) :
    EscrowTransaction × ActionResult × List RailOp :=
  if e.allConditionsMet = false then
    (e, { success := false, error := some "Not all conditions are met" }, [])
  else if e.status = .released ∨ e.status = .refunded then
    (e, { success := false, error := some "Funds already released or refunded" }, [])
  else if rail.transferOk = false then
    (e, { success := false, error := some "transfer failed" }, [])
  else if rail.payoutOk = false then
    (e, { success := false, error := some "payout failed" },
     [.transfer e.sellerAmount e.sellerStripeAccountId])
  else
    ({ e with
        status := .released
        statusHistory := e.statusHistory ++
          [{ status := .released, timestamp := now, triggeredBy := "system",
             note := "All conditions met - funds released to seller" }]
        stripeTransferId := some rail.transferId
        stripePayoutId := some rail.payoutId },
     { success := true },
     [.transfer e.sellerAmount e.sellerStripeAccountId,
      .payout e.sellerAmount e.sellerStripeAccountId])

/-- Source function `evaluateSettlementConditions(escrowId)`: evaluate every condition
against the fetched snapshot, persist the evaluated list and the recomputed
`allConditionsMet` flag, and, if all are met and the fetched status is not
`released`/`refunded`/`disputed`, call `releaseFundsToSeller` (which
re-reads the just-persisted document). -/
def evaluateSettlementConditions (rail : Rail) (now : Int)
    (e : EscrowTransaction) : EscrowTransaction × EvalResult × List RailOp :=
  let evaluated := e.conditions.map (fun c => evaluateCondition c e now)
  let allMet := evaluated.all (fun c => c.isMet)
  let unmet := (evaluated.filter (fun c => !c.isMet)).map (fun c => c.description)
  let e1 := { e with conditions := evaluated, allConditionsMet := allMet }
  if allMet = true ∧ ¬(e.status = .released ∨ e.status = .refunded ∨ e.status = .disputed) then
    let r := releaseFundsToSeller rail now e1
    (r.1, { allConditionsMet := allMet, unmetConditions := unmet,
            released := r.2.1.success }, r.2.2)
  else
    (e1, { allConditionsMet := allMet, unmetConditions := unmet,
           released := false }, [])

/-- Helper of `updateCondition`: update the config of the first condition of
the given type (the source's `findIndex` followed by an in-place update). -/
def updateFirstCondition (t : ConditionType) (f : ConditionConfig → ConditionConfig) :
    List SettlementCondition → List SettlementCondition
  | [] => []
  | c :: cs =>
      if c.type = t then { c with config := f c.config } :: cs
      else c :: updateFirstCondition t f cs

/-- Source function `updateCondition(escrowId, conditionType, updates)`: merge `updates`
into the config of the first condition of that type, if present. -/
def updateCondition (e : EscrowTransaction) (t : ConditionType)
    (f : ConditionConfig → ConditionConfig) : EscrowTransaction :=
  { e with conditions := updateFirstCondition t f e.conditions }

/-- Tracking data supplied by the seller to `markAsShipped`. -/
structure TrackingData where
  carrier : String
  trackingNumber : String
  trackingUrl : Option String := none
  estimatedDelivery : Option String := none
deriving DecidableEq

/-- Source function `markAsShipped(escrowId, sellerId, trackingData)`: authorization guard,
status guard, then the status/history/shipping-details update, the tracking
condition config update, and a settlement evaluation. -/
def markAsShipped (rail : Rail) (now : Int) (e : EscrowTransaction)
    (sellerId : String) (td : TrackingData) :
    EscrowTransaction × ActionResult × List RailOp :=
  if ¬(e.sellerId = sellerId) then
    (e, { success := false, error := some "Unauthorized" }, [])
  else if ¬(e.status = .payment_received) then
    (e, { success := false, error := some "Invalid status for shipping" }, [])
  else
    let sh : ShippingDetails :=
      { carrier := td.carrier, trackingNumber := td.trackingNumber,
        trackingUrl := td.trackingUrl, estimatedDelivery := td.estimatedDelivery,
        shippedAt := some now }
    let e1 := { e with
      status := .shipped
      statusHistory := e.statusHistory ++
        [{ status := .shipped, timestamp := now, triggeredBy := "seller",
           note := "Shipped via " ++ td.carrier }]
      shippingDetails := some sh }
    let e2 := updateCondition e1 .tracking_confirmation
      (fun cfg => { cfg with trackingNumber := some td.trackingNumber,
                             carrierName := some td.carrier })
    let r := evaluateSettlementConditions rail now e2
    (r.1, { success := true }, r.2.2)

/-- Source function `confirmReceipt(escrowId, buyerId, ...)`: authorization guard, status
guard, then the status update, the buyer-confirmation condition config
update, and a settlement evaluation. -/
def confirmReceipt (rail : Rail) (now : Int) (e : EscrowTransaction)
    (buyerId : String) : EscrowTransaction × ActionResult × List RailOp :=
  if ¬(e.buyerId = buyerId) then
    (e, { success := false, error := some "Unauthorized" }, [])
  else if ¬(e.status = .shipped ∨ e.status = .in_transit ∨ e.status = .delivered) then
    (e, { success := false, error := some "Item must be delivered before confirming" }, [])
  else
    let e1 := { e with
      status := .confirmed
      statusHistory := e.statusHistory ++
        [{ status := .confirmed, timestamp := now, triggeredBy := "buyer",
           note := "Buyer confirmed receipt" }] }
    let e2 := updateCondition e1 .buyer_confirmation
      (fun cfg => { cfg with confirmationRequired := some true })
    let r := evaluateSettlementConditions rail now e2
    (r.1, { success := true }, r.2.2)

/-- Source function `openDispute(escrowId, buyerId, reason, ...)`: authorization guard,
status guard, dispute-deadline guard (skipped when no deadline is stored),
then the transition to `disputed`. -/
def openDispute (now : Int) (e : EscrowTransaction) (buyerId : String)
    (reason : String) : EscrowTransaction × ActionResult :=
  if ¬(e.buyerId = buyerId) then
    (e, { success := false, error := some "Unauthorized" })
  else if ¬(e.status = .shipped ∨ e.status = .in_transit ∨
            e.status = .delivered ∨ e.status = .confirmed) then
    (e, { success := false, error := some "Cannot dispute at this stage" })
  else if (match e.disputePeriodEndsAt with
           | some deadline => decide (deadline < now)
           | none => false) then
    (e, { success := false, error := some "Dispute period has expired" })
  else
    ({ e with
        status := .disputed
        statusHistory := e.statusHistory ++
          [{ status := .disputed, timestamp := now, triggeredBy := "buyer",
             note := reason }]
        disputeReason := some reason
        disputedAt := some now },
     { success := true })

/-- Fee computation of `createEscrowTransaction`, over exact rationals:
`platformFee = round(amount * (p1 / 100) + f1)`,
`stripeFee = round(amount * (p2 / 100) + f2)`,
`sellerAmount = amount - platformFee - stripeFee`. -/
def computeFees (amount : ℤ) (p1 f1 p2 f2 : ℚ) : ℤ × ℤ × ℤ :=
  let platformFee : ℤ := round ((amount : ℚ) * (p1 / 100) + f1)
  let stripeFee : ℤ := round ((amount : ℚ) * (p2 / 100) + f2)
  (platformFee, stripeFee, amount - platformFee - stripeFee)

/-- Successive sequential calls of `releaseFundsToSeller` on one
transaction, each threading the updated document into the next; the list
records each call's `success` flag. -/
def releaseSeq (now : Int) (e : EscrowTransaction) : List Rail → List Bool
  | [] => []
  | r :: rs =>
      let step := releaseFundsToSeller r now e
      step.2.1.success :: releaseSeq now step.1 rs

/-- Settleability as the specification words it: every condition marked
`required` is met, and, when at least one condition lacks `required`, at
least one of those is met.  (Stated for comparison with the aggregation the
code actually computes.) -/
def specSettleable (conds : List SettlementCondition) : Bool :=
  let unrequired := conds.filter (fun c => !(c.required == some true))
  (conds.filter (fun c => c.required == some true)).all (fun c => c.isMet) &&
  (unrequired.isEmpty || unrequired.any (fun c => c.isMet))

/-! ### Concrete fixtures used in witnesses and counterexamples -/

/-- A rail on which both the transfer and the payout call succeed. -/
def rail0 : Rail :=
  { transferOk := true, payoutOk := true, transferId := "tr_1", payoutId := "po_1" }

/-- A rail on which the transfer succeeds but the payout call fails. -/
def railBFail : Rail :=
  { transferOk := true, payoutOk := false, transferId := "tr_1", payoutId := "po_1" }

/-- A $450.00 escrow between `buyer1` and `seller1`, currently `shipped`. -/
def baseTx : EscrowTransaction :=
  { buyerId := "buyer1"
    sellerId := "seller1"
    sellerStripeAccountId := "acct_1"
    amount := 45000
    platformFee := 1155
    sellerAmount := 42510
    currency := "nzd"
    status := .shipped
    statusHistory := []
    conditions := []
    allConditionsMet := false }

/-- A `dual_signature` condition, not required, with both signatures in
place (so it evaluates to met). -/
def condSig : SettlementCondition :=
  { type := .dual_signature
    description := "Both parties must sign"
    required := some false
    isMet := false
    config := { buyerSigned := some true, sellerSigned := some true } }

/-- A `buyer_confirmation` condition, not required. -/
def condBuyer : SettlementCondition :=
  { type := .buyer_confirmation
    description := "Buyer must confirm receipt OR"
    required := some false
    isMet := false
    config := { confirmationRequired := some true } }

/-- A shipped transaction with two unrequired conditions, of which exactly
one (the dual-signature one) evaluates to met. -/
def exC1 : EscrowTransaction := { baseTx with conditions := [condSig, condBuyer] }

/-- An already released transaction whose single buyer-confirmation
condition was met (while the status was `confirmed`). -/
def exC2 : EscrowTransaction :=
  { baseTx with
    status := .released
    allConditionsMet := true
    conditions := [{ condBuyer with isMet := true, metAt := some 1 }] }

/-- A confirmed transaction with all conditions met, ready for release. -/
def exC3 : EscrowTransaction :=
  { baseTx with
    status := .confirmed
    allConditionsMet := true
    conditions := [{ condBuyer with isMet := true, metAt := some 1 }] }

/-- A delivered transaction whose dispute period ends at time 500. -/
def exC5 : EscrowTransaction :=
  { baseTx with status := .delivered, disputePeriodEndsAt := some 500 }

/-- A `time_based` condition whose config lacks `autoReleaseAt`, carried
over with `isMet = true` from an earlier state. -/
def condTimeBroken : SettlementCondition :=
  { type := .time_based
    description := "Auto-release"
    isMet := true
    metAt := some 0
    config := {} }

/-- A delivered transaction with a buyer-confirmation condition and a
far-future time-based condition; dispute period ends at time 500. -/
def exC10 : EscrowTransaction :=
  { baseTx with
    status := .delivered
    disputePeriodEndsAt := some 500
    conditions := [condBuyer,
      { type := .time_based
        description := "Auto-release after 14 days"
        isMet := false
        config := { autoReleaseAt := some 1000000 } }] }

/-- State of `exC10` after the buyer confirms receipt at time 10 (this marks the
buyer-confirmation condition met, with `metAt = 10`). -/
def afterConfirm : EscrowTransaction := (confirmReceipt rail0 10 exC10 "buyer1").1

/-- State of `afterConfirm` after the buyer opens a dispute at time 20. -/
def afterDispute : EscrowTransaction :=
  (openDispute 20 afterConfirm "buyer1" "item broken").1

/-- State of `afterDispute` after a settlement re-evaluation at time 30. -/
def afterReeval : EscrowTransaction :=
  (evaluateSettlementConditions rail0 30 afterDispute).1

/-! ### Helper lemmas -/

/-- Lemma: `releaseFundsToSeller` never touches the condition list. -/
theorem releaseFundsToSeller_conditions (rail : Rail) (now : Int)
    (e : EscrowTransaction) :
    (releaseFundsToSeller rail now e).1.conditions = e.conditions := by
  unfold releaseFundsToSeller
  split_ifs <;> rfl

/-- A successful `releaseFundsToSeller` call leaves the document in status
`released`. -/
theorem releaseFundsToSeller_success_status (rail : Rail) (now : Int)
    (e : EscrowTransaction)
    (h : (releaseFundsToSeller rail now e).2.1.success = true) :
    (releaseFundsToSeller rail now e).1.status = .released := by
  unfold releaseFundsToSeller at h ⊢
  split_ifs at h ⊢
  all_goals simp_all

/-- A failed `releaseFundsToSeller` call leaves the document unchanged. -/
theorem releaseFundsToSeller_fail_fix (rail : Rail) (now : Int)
    (e : EscrowTransaction)
    (h : (releaseFundsToSeller rail now e).2.1.success = false) :
    (releaseFundsToSeller rail now e).1 = e := by
  unfold releaseFundsToSeller at h ⊢
  split_ifs at h ⊢ <;> simp_all

/-- On an already released document, `releaseFundsToSeller` fails and
changes nothing. -/
theorem releaseFundsToSeller_released_noop (rail : Rail) (now : Int)
    (e : EscrowTransaction) (h : e.status = .released) :
    (releaseFundsToSeller rail now e).2.1.success = false ∧
    (releaseFundsToSeller rail now e).1 = e := by
  unfold releaseFundsToSeller
  split_ifs with h1 h2 <;> simp_all

/-- Once a transaction is released, every later sequential release call
fails. -/
theorem releaseSeq_released_all_false (now : Int) (rails : List Rail)
    (e : EscrowTransaction) (h : e.status = .released) :
    (releaseSeq now e rails).count true = 0 := by
  induction rails generalizing e with
  | nil => rfl
  | cons r rs ih =>
      have hr := releaseFundsToSeller_released_noop r now e h
      simp only [releaseSeq, hr.1, hr.2]
      have := ih e h
      simpa [List.count_cons] using this

/-- At most one call in any sequential chain of `releaseFundsToSeller`
calls succeeds. -/
theorem releaseSeq_count_le_one (now : Int) (rails : List Rail)
    (e : EscrowTransaction) :
    (releaseSeq now e rails).count true ≤ 1 := by
  induction rails generalizing e with
  | nil => simp [releaseSeq]
  | cons r rs ih =>
      by_cases hs : (releaseFundsToSeller r now e).2.1.success = true
      · have hst := releaseFundsToSeller_success_status r now e hs
        have h0 := releaseSeq_released_all_false now rs
          (releaseFundsToSeller r now e).1 hst
        simp [releaseSeq, hs, List.count_cons, h0]
      · have hs' : (releaseFundsToSeller r now e).2.1.success = false := by
          simpa using hs
        have := ih (releaseFundsToSeller r now e).1
        simp only [releaseSeq, hs']
        simpa [List.count_cons] using this


/-! ### Claim theorems -/

/-- C1: the specification's aggregation rule says a transaction with at
least one unrequired condition is settleable as soon as any one unrequired
condition is met (all required ones being met); the code's aggregation
(`allMet = every condition is met`) disagrees: on a transaction with two
unrequired conditions of which exactly one is met, the spec formula says
settleable while `evaluateSettlementConditions` reports
`allConditionsMet = false` and releases nothing. -/
theorem evaluateSettlementConditions_ignores_unrequired_or_semantics :
    specSettleable (exC1.conditions.map (fun c => evaluateCondition c exC1 100)) = true ∧
    (evaluateSettlementConditions rail0 100 exC1).2.1.allConditionsMet = false ∧
    (evaluateSettlementConditions rail0 100 exC1).2.1.released = false := by
  decide

/-- C2 (counterexample): on an already-released transaction whose single
buyer-confirmation condition had been met, `evaluateSettlementConditions`
is not the claimed no-op: it reports `allConditionsMet = false` (not
`true`) and rewrites the stored condition list. -/
theorem evaluateSettlementConditions_released_not_noop :
    exC2.status = .released ∧
    (evaluateSettlementConditions rail0 5 exC2).2.1.allConditionsMet = false ∧
    (evaluateSettlementConditions rail0 5 exC2).1.conditions ≠ exC2.conditions := by
  decide

/-- C2 (amended): on an already-released transaction,
`evaluateSettlementConditions` reports `released = false`, performs no rail
operation, never attempts a second release, and keeps the status
`released`; but it re-evaluates the conditions and persists the re-evaluated
list and the recomputed `allConditionsMet` flag (which need not be true). -/
theorem evaluateSettlementConditions_released_never_rereleases (rail : Rail)
    (now : Int) (e : EscrowTransaction) (h : e.status = .released) :
    (evaluateSettlementConditions rail now e).2.1.released = false ∧
    (evaluateSettlementConditions rail now e).2.2 = [] ∧
    (evaluateSettlementConditions rail now e).1.status = .released ∧
    (evaluateSettlementConditions rail now e).1 =
      { e with
          conditions := e.conditions.map (fun c => evaluateCondition c e now)
          allConditionsMet :=
            (e.conditions.map (fun c => evaluateCondition c e now)).all
              (fun c => c.isMet) } := by
  unfold evaluateSettlementConditions
  simp [h]

/-- C2 (witness for the amended theorem): concrete released transaction. -/
theorem evaluateSettlementConditions_released_never_rereleases_witness :
    (evaluateSettlementConditions rail0 5 exC2).2.1.released = false ∧
    (evaluateSettlementConditions rail0 5 exC2).2.2 = [] :=
  ⟨(evaluateSettlementConditions_released_never_rereleases rail0 5 exC2 (by decide)).1,
   (evaluateSettlementConditions_released_never_rereleases rail0 5 exC2 (by decide)).2.1⟩

/-- C3: when the transfer step succeeds and the payout step fails,
`releaseFundsToSeller` leaves the transaction untouched — in particular not
marked `released`, as the claim says, but ALSO with no transfer identifier
persisted (`stripeTransferId = none`), contrary to the claim — and a retry
of the release issues a second transfer rather than retrying only the
payout. -/
theorem releaseFundsToSeller_payout_failure_retransfers :
    (releaseFundsToSeller railBFail 7 exC3).1 = exC3 ∧
    (releaseFundsToSeller railBFail 7 exC3).2.2 = [.transfer 42510 "acct_1"] ∧
    (releaseFundsToSeller railBFail 7 exC3).1.stripeTransferId = none ∧
    (releaseFundsToSeller rail0 8 (releaseFundsToSeller railBFail 7 exC3).1).2.2 =
      [.transfer 42510 "acct_1", .payout 42510 "acct_1"] := by
  decide

/-- C4: a call to `releaseFundsToSeller` with `allConditionsMet` false or a
`released`/`refunded` status performs no rail operation, leaves the
document unchanged, and returns a failure; and across any sequence of
sequential release calls on one transaction at most one call succeeds. -/
theorem releaseFundsToSeller_guard_noop_and_at_most_once (rail : Rail)
    (now : Int) (e : EscrowTransaction)
    (h : e.allConditionsMet = false ∨ e.status = .released ∨ e.status = .refunded) :
    (releaseFundsToSeller rail now e).1 = e ∧
    (releaseFundsToSeller rail now e).2.1.success = false ∧
    (releaseFundsToSeller rail now e).2.2 = [] ∧
    ∀ (e' : EscrowTransaction) (rails : List Rail),
      (releaseSeq now e' rails).count true ≤ 1 := by
  refine ⟨?_, ?_, ?_, fun e' rails => releaseSeq_count_le_one now rails e'⟩ <;>
  · unfold releaseFundsToSeller
    rcases h with h | h | h <;> by_cases hm : e.allConditionsMet = false <;>
      simp [h, hm]

/-- C4 (witness): concrete guard-violating call (conditions not met). -/
theorem releaseFundsToSeller_guard_noop_and_at_most_once_witness :
    (releaseFundsToSeller rail0 3 baseTx).1 = baseTx ∧
    (releaseFundsToSeller rail0 3 baseTx).2.1.success = false :=
  ⟨(releaseFundsToSeller_guard_noop_and_at_most_once rail0 3 baseTx
      (Or.inl (by decide))).1,
   (releaseFundsToSeller_guard_noop_and_at_most_once rail0 3 baseTx
      (Or.inl (by decide))).2.1⟩

/-- C5: with a stored dispute deadline and a disputable status, a dispute
opened by the transaction's buyer before the deadline succeeds and moves
the status to `disputed`, while one opened after the deadline fails with
the validation error and leaves the transaction entirely unchanged. -/
theorem openDispute_respects_dispute_deadline (now deadline : Int)
    (e : EscrowTransaction) (buyerId reason : String)
    (hb : e.buyerId = buyerId)
    (hs : e.status = .shipped ∨ e.status = .in_transit ∨
          e.status = .delivered ∨ e.status = .confirmed)
    (hd : e.disputePeriodEndsAt = some deadline) :
    (now < deadline →
      (openDispute now e buyerId reason).2.success = true ∧
      (openDispute now e buyerId reason).1.status = .disputed) ∧
    (deadline < now →
      openDispute now e buyerId reason =
        (e, { success := false, error := some "Dispute period has expired" })) := by
  constructor
  · intro hlt
    have hnot : ¬(deadline < now) := by omega
    unfold openDispute
    rcases hs with h | h | h | h <;> simp [hb, h, hd, hnot]
  · intro hgt
    unfold openDispute
    rcases hs with h | h | h | h <;> simp [hb, h, hd, hgt]

/-- C5 (witness): dispute at time 499 versus deadline 500 succeeds;
dispute at time 501 fails and changes nothing. -/
theorem openDispute_respects_dispute_deadline_witness :
    ((openDispute 499 exC5 "buyer1" "damaged").2.success = true ∧
     (openDispute 499 exC5 "buyer1" "damaged").1.status = .disputed) ∧
    openDispute 501 exC5 "buyer1" "damaged" =
      (exC5, { success := false, error := some "Dispute period has expired" }) :=
  ⟨(openDispute_respects_dispute_deadline 499 500 exC5 "buyer1" "damaged"
      (by decide) (Or.inr (Or.inr (Or.inl (by decide)))) (by decide)).1 (by decide),
   (openDispute_respects_dispute_deadline 501 500 exC5 "buyer1" "damaged"
      (by decide) (Or.inr (Or.inr (Or.inl (by decide)))) (by decide)).2 (by decide)⟩

/-- C6: the fees computed at transaction creation satisfy
`platformFee = round(A*p1/100 + f1)`, `railFee = round(A*p2/100 + f2)`,
`sellerAmount = A - platformFee - railFee`, and they sum back to `A`; for
`A = 45000` with platform fee 2.5% + 30 and rail fee 2.9% + 30 this gives
`platformFee = 1155` and `railFee = 1335`. -/
theorem createEscrowTransaction_fee_arithmetic (A : ℤ) (p1 f1 p2 f2 : ℚ) :
    (computeFees A p1 f1 p2 f2).1 = round ((A : ℚ) * p1 / 100 + f1) ∧
    (computeFees A p1 f1 p2 f2).2.1 = round ((A : ℚ) * p2 / 100 + f2) ∧
    (computeFees A p1 f1 p2 f2).2.2 =
      A - (computeFees A p1 f1 p2 f2).1 - (computeFees A p1 f1 p2 f2).2.1 ∧
    (computeFees A p1 f1 p2 f2).1 + (computeFees A p1 f1 p2 f2).2.1 +
      (computeFees A p1 f1 p2 f2).2.2 = A ∧
    computeFees 45000 (5/2) 30 (29/10) 30 = (1155, 1335, 42510) := by
  refine ⟨by rw [computeFees, mul_div_assoc], by rw [computeFees, mul_div_assoc], rfl, by
    simp only [computeFees]; ring, ?_⟩
  simp only [computeFees]
  norm_num [round_eq]

/-- C7: a `time_based` condition with a stored `autoReleaseAt` instant
evaluates to met exactly when `now` is at or after that instant — the
incoming `isMet` value (i.e. any number of earlier evaluations) is
irrelevant — and evaluation leaves the config, hence the stored deadline,
unchanged (it is never recomputed from the evaluation time). -/
theorem evaluateCondition_time_based_fixed_instant (c : SettlementCondition)
    (e : EscrowTransaction) (now t : Int)
    (ht : c.type = .time_based) (ha : c.config.autoReleaseAt = some t) :
    (evaluateCondition c e now).isMet = decide (t ≤ now) ∧
    (evaluateCondition c e now).config = c.config ∧
    (evaluateCondition c e now).type = c.type ∧
    ∀ (e' : EscrowTransaction) (earlier : Int),
      (evaluateCondition (evaluateCondition c e' earlier) e now).isMet =
        decide (t ≤ now) := by
  unfold evaluateCondition
  simp only [ht, ha]
  constructor
  · split <;> rfl
  constructor
  · split <;> rfl
  constructor
  · split <;> rfl
  · intro e' earlier
    split
    all_goals simp [ha]
    all_goals split
    all_goals rfl

/-- C7 (witness): deadline 100, evaluated at 150 (met) on a condition that
had already been evaluated earlier at 40 (not met then). -/
theorem evaluateCondition_time_based_fixed_instant_witness :
    (evaluateCondition
      { type := .time_based, description := "Auto-release", isMet := false,
        config := { autoReleaseAt := some 100 } } baseTx 150).isMet = true ∧
    (evaluateCondition (evaluateCondition
      { type := .time_based, description := "Auto-release", isMet := false,
        config := { autoReleaseAt := some 100 } } baseTx 40) baseTx 150).isMet = true :=
  ⟨(evaluateCondition_time_based_fixed_instant _ baseTx 150 100 rfl rfl).1,
   (evaluateCondition_time_based_fixed_instant _ baseTx 150 100 rfl rfl).2.2.2 baseTx 40⟩

/-- C8: `markAsShipped` and `confirmReceipt` reject a caller whose identity
does not match the transaction's seller/buyer with an authorization error,
and reject a transaction outside the allowed source states with an
invalid-state error; in every such failure the transaction is returned
unchanged and no rail operation happens. -/
theorem escrow_action_guards (rail : Rail) (now : Int) (e : EscrowTransaction)
    (sellerId buyerId : String) (td : TrackingData) :
    (¬(e.sellerId = sellerId) →
      markAsShipped rail now e sellerId td =
        (e, { success := false, error := some "Unauthorized" }, [])) ∧
    (e.sellerId = sellerId → ¬(e.status = .payment_received) →
      markAsShipped rail now e sellerId td =
        (e, { success := false, error := some "Invalid status for shipping" }, [])) ∧
    (¬(e.buyerId = buyerId) →
      confirmReceipt rail now e buyerId =
        (e, { success := false, error := some "Unauthorized" }, [])) ∧
    (e.buyerId = buyerId →
      ¬(e.status = .shipped ∨ e.status = .in_transit ∨ e.status = .delivered) →
      confirmReceipt rail now e buyerId =
        (e, { success := false,
              error := some "Item must be delivered before confirming" }, [])) := by
  refine ⟨fun h => ?_, fun h1 h2 => ?_, fun h => ?_, fun h1 h2 => ?_⟩
  · unfold markAsShipped
    simp [h]
  · unfold markAsShipped
    simp [h1, h2]
  · unfold confirmReceipt
    simp [h]
  · unfold confirmReceipt
    simp [h1, h2]

/-- C8 (witness): wrong seller, wrong status, wrong buyer, wrong status. -/
theorem escrow_action_guards_witness :
    markAsShipped rail0 3 baseTx "intruder"
        { carrier := "NZPost", trackingNumber := "NZP1" } =
      (baseTx, { success := false, error := some "Unauthorized" }, []) ∧
    markAsShipped rail0 3 baseTx "seller1"
        { carrier := "NZPost", trackingNumber := "NZP1" } =
      (baseTx, { success := false, error := some "Invalid status for shipping" }, []) ∧
    confirmReceipt rail0 3 exC3 "buyer1" =
      (exC3, { success := false,
               error := some "Item must be delivered before confirming" }, []) :=
  ⟨(escrow_action_guards rail0 3 baseTx "intruder" "buyer1"
      { carrier := "NZPost", trackingNumber := "NZP1" }).1 (by decide),
   (escrow_action_guards rail0 3 baseTx "seller1" "buyer1"
      { carrier := "NZPost", trackingNumber := "NZP1" }).2.1 (by decide) (by decide),
   (escrow_action_guards rail0 3 exC3 "seller1" "buyer1"
      { carrier := "NZPost", trackingNumber := "NZP1" }).2.2.2 (by decide) (by decide)⟩

/-- C9 (counterexample): a `time_based` condition whose config lacks
`autoReleaseAt` and which carries `isMet = true` still evaluates with
`isMet = true` — evaluation leaves the flag as it was instead of forcing
it to `false` as the claim states. -/
theorem evaluateCondition_missing_config_keeps_prior_isMet :
    condTimeBroken.config.autoReleaseAt = none ∧
    (evaluateCondition condTimeBroken baseTx 50).isMet = true := by
  decide

/-- C9 (amended): a condition whose config lacks the field its type needs
is evaluated without error and without aborting the other conditions — the
engine still evaluates every condition — but its `isMet` flag is left at
its previous value (hence a never-met condition stays not met) rather than
being forced to `false`; a condition of unrecognized type is set to
`isMet = false`. -/
theorem evaluateCondition_missing_config_fails_closed_amended (rail : Rail)
    (c : SettlementCondition) (e : EscrowTransaction) (now : Int) :
    (c.type = .time_based → c.config.autoReleaseAt = none →
      (evaluateCondition c e now).isMet = c.isMet) ∧
    (c.type = .milestone_based → c.config.milestones = none →
      (evaluateCondition c e now).isMet = c.isMet) ∧
    (c.type = .delivery_confirmation → e.shippingDetails = none →
      (evaluateCondition c e now).isMet = c.isMet) ∧
    (c.type = .inspection_period → c.config.inspectionDeadline = none →
      (evaluateCondition c e now).isMet = c.isMet) ∧
    (c.type = .other → (evaluateCondition c e now).isMet = false) ∧
    (evaluateSettlementConditions rail now e).1.conditions =
      e.conditions.map (fun c => evaluateCondition c e now) := by
  refine ⟨fun ht ha => ?_, fun ht hm => ?_, fun ht hs => ?_, fun ht hd => ?_,
    fun ht => ?_, ?_⟩
  · unfold evaluateCondition
    simp only [ht, ha]
    split <;> rfl
  · unfold evaluateCondition
    simp only [ht, hm]
    split <;> rfl
  · unfold evaluateCondition
    simp only [ht, hs]
    split <;> rfl
  · unfold evaluateCondition
    simp only [ht, hd]
    split <;> rfl
  · unfold evaluateCondition
    simp only [ht]
    split <;> rfl
  · by_cases hc :
      ((e.conditions.map (fun c => evaluateCondition c e now)).all
          (fun c => c.isMet) = true ∧
        ¬(e.status = .released ∨ e.status = .refunded ∨ e.status = .disputed))
    · simp only [evaluateSettlementConditions, if_pos hc]
      exact releaseFundsToSeller_conditions rail now _
    · simp only [evaluateSettlementConditions, if_neg hc]

/-- C9 (witness for the amended theorem): the broken time-based condition
keeps its flag; an unrecognized-type condition is forced to false. -/
theorem evaluateCondition_missing_config_fails_closed_amended_witness :
    (evaluateCondition condTimeBroken baseTx 50).isMet = condTimeBroken.isMet ∧
    (evaluateCondition { condTimeBroken with type := .other } baseTx 50).isMet = false :=
  ⟨(evaluateCondition_missing_config_fails_closed_amended rail0 condTimeBroken
      baseTx 50).1 (by decide) (by decide),
   (evaluateCondition_missing_config_fails_closed_amended rail0
      { condTimeBroken with type := .other } baseTx 50).2.2.2.2.1 (by decide)⟩

/-- C10: there is a reachable run on which evaluation flips a condition's
`isMet` from true back to false — the buyer confirms receipt (the
buyer-confirmation condition becomes met at time 10), then opens a dispute,
and the next evaluation re-computes the condition as not met because the
status is no longer `confirmed` — while `metAt`, once set, is never cleared
or overwritten by any evaluation. -/
theorem evaluateCondition_can_flip_isMet_and_preserves_metAt :
    (afterDispute.conditions.map (fun c => c.isMet) = [true, false] ∧
     afterDispute.status = .disputed ∧
     afterReeval.conditions.map (fun c => c.isMet) = [false, false] ∧
     afterReeval.conditions.map (fun c => c.metAt) = [some 10, none]) ∧
    ∀ (c : SettlementCondition) (e : EscrowTransaction) (now t : Int),
      c.metAt = some t → (evaluateCondition c e now).metAt = some t := by
  refine ⟨by decide, fun c e now t h => ?_⟩
  rcases c with ⟨ty, desc, req, met, mAt, cfg, pr⟩
  cases mAt with
  | none => exact absurd h (by simp)
  | some t0 =>
      have ht : t0 = t := by simpa using h
      subst ht
      cases ty with
      | tracking_confirmation => simp [evaluateCondition]
      | time_based => cases hA : cfg.autoReleaseAt <;> simp [evaluateCondition, hA]
      | buyer_confirmation => simp [evaluateCondition]
      | delivery_confirmation =>
          cases hS : e.shippingDetails <;> simp [evaluateCondition, hS]
      | milestone_based => cases hM : cfg.milestones <;> simp [evaluateCondition, hM]
      | inspection_period =>
          cases hI : cfg.inspectionDeadline <;> simp [evaluateCondition, hI]
      | dual_signature => simp [evaluateCondition]
      | other => simp [evaluateCondition]

/-- C10 (witness): `metAt` preservation at a concrete met condition. -/
theorem evaluateCondition_can_flip_isMet_and_preserves_metAt_witness :
    (evaluateCondition condTimeBroken baseTx 50).metAt = some 0 :=
  evaluateCondition_can_flip_isMet_and_preserves_metAt.2 condTimeBroken baseTx 50 0 rfl
